import Mathlib

/-!
Verification development for the BUHGALTERIYA expense-tracking bot.

The repository holds two drafts of the same Telegram bot:
`bot_Version2.py` (the main draft: Supabase tables `users`, `balances`,
`transactions`, `expenses`; admin settle/defer callbacks; HR/IT/admin FSM
flows) and `bot.py` (a simpler draft: a `users` table with an inline
`balance` column and an `expenses` table, no transaction log).

This file shallowly embeds the database state and the handler bodies of
both drafts as pure Lean functions over explicit state records, and proves
or refutes the frozen claims about them.  Database tables become lists of
row structures; Supabase `select ... maybe_single` becomes `List.find?`;
`update ... eq` becomes a guarded `List.map`; `insert` appends.  Monetary
amounts (Python `Decimal`) become `ℚ`.  External collaborators (receipt
upload, the allowed-users map) are passed in as function parameters.
-/

namespace Buh

/-- Python `str.lower` restricted to the alphabets the bot compares
(ASCII plus the Cyrillic range used by the token literals). -/
def pyLowerChar (c : Char) : Char :=
  if 0x41 ≤ c.toNat ∧ c.toNat ≤ 0x5A then Char.ofNat (c.toNat + 32)
  else if 0x410 ≤ c.toNat ∧ c.toNat ≤ 0x42F then Char.ofNat (c.toNat + 32)
  else if c.toNat = 0x401 then Char.ofNat 0x451
  else c

/-- Python `str.lower` on a whole string. -/
def pyLower (s : String) : String :=
  String.mk (s.data.map pyLowerChar)

/-- Python `str.lstrip("@")`: drop every leading at-sign. -/
def lstripAt (s : String) : String :=
  String.mk (s.data.dropWhile (fun c => c = '@'))

/-- Token-extraction loop of `parse_amount` in `bot_Version2.py`:
walk the characters, collecting digits and the two separators (a comma is
rewritten to a dot); stop at the first non-member once the accumulator is
non-empty. -/
def extractToken : List Char → List Char → List Char
  | [], acc => acc
  | c :: rest, acc =>
    if c.isDigit ∨ c = '.' ∨ c = ',' then
      extractToken rest (acc ++ [if c = ',' then '.' else c])
    else if acc ≠ [] then acc
    else extractToken rest acc

/-- Numeric value of a digit string (most significant first). -/
def digitsVal : List Char → Nat
  | [] => 0
  | c :: rest => (c.toNat - '0'.toNat) * 10 ^ rest.length + digitsVal rest

/-- Python `Decimal(s)` on a token made only of digits and dots: it
succeeds when the token has at least one digit and at most one dot,
and otherwise raises `InvalidOperation` (modelled as `none`). -/
def parseDecimalToken (t : List Char) : Option ℚ :=
  if t.count '.' ≤ 1 ∧ t.any Char.isDigit then
    some ((digitsVal (t.takeWhile (fun c => c ≠ '.')) : ℚ) +
      (digitsVal ((t.dropWhile (fun c => c ≠ '.')).drop 1) : ℚ)
        / (10 : ℚ) ^ ((t.dropWhile (fun c => c ≠ '.')).drop 1).length)
  else none

/-- `parse_amount` from `bot_Version2.py`: extract the first number-like
token (digits, dots, commas; a comma becomes a dot) and feed it to
`Decimal`; empty token or an invalid decimal yields `None`. -/
def parse_amount (s : String) : Option ℚ :=
  if extractToken s.data [] = [] then none
  else parseDecimalToken (extractToken s.data [])

/-- Python truthiness test `if not amount:` applied to the result of
`parse_amount` at every call site: `None` and `Decimal("0")` are both
falsy, so an amount is accepted only when it parses and is non-zero. -/
def amountAccepted (s : String) : Bool :=
  match parse_amount s with
  | none => false
  | some a => if a = 0 then false else true

end Buh

namespace Buh.V2

/-- A row of the `users` table in `bot_Version2.py`. -/
structure UserRow where
  id : Nat
  tg_id : Option Nat
  username : String
  role : String
  deriving Repr, DecidableEq

/-- A row of the `balances` table. -/
structure BalanceRow where
  user_id : Nat
  balance : ℚ
  deriving Repr, DecidableEq

/-- A row of the `transactions` table (timestamps omitted). -/
structure TransactionRow where
  from_user : Option Nat
  to_user : Option Nat
  amount : ℚ
  type : String
  deriving Repr, DecidableEq

/-- A row of the `expenses` table (timestamps omitted). -/
structure ExpenseRow where
  id : Nat
  user_id : Nat
  username : String
  role : String
  amount : ℚ
  resource : Option String
  image_url : Option String
  note : Option String
  status : String
  paid_by : Option Nat
  deriving Repr, DecidableEq

/-- The Supabase database state seen by `bot_Version2.py`, plus the two
counters the database uses to assign fresh primary keys. -/
structure DB where
  users : List UserRow
  balances : List BalanceRow
  transactions : List TransactionRow
  expenses : List ExpenseRow
  nextUserId : Nat
  nextExpenseId : Nat
  deriving Repr, DecidableEq

/-- `get_user_by_username`: strip at-signs, then `maybe_single` on the
`users` table. -/
def get_user_by_username (db : DB) (username : String) : Option UserRow :=
  db.users.find? (fun u => u.username = lstripAt username)

/-- `get_user_by_tg_id`. -/
def get_user_by_tg_id (db : DB) (tg : Nat) : Option UserRow :=
  db.users.find? (fun u => u.tg_id = some tg)

/-- First `balances` row of a user, as read by `get_balance`. -/
def balLookup (l : List BalanceRow) (uid : Nat) : ℚ :=
  match l.find? (fun b => b.user_id = uid) with
  | some b => b.balance
  | none => 0

/-- `update balances set balance = v where user_id = uid`. -/
def balSet (l : List BalanceRow) (uid : Nat) (v : ℚ) : List BalanceRow :=
  l.map (fun b => if b.user_id = uid then { b with balance := v } else b)

/-- `get_balance(user_id)`: a falsy `user_id` short-circuits to zero,
otherwise the first matching `balances` row (or zero when absent). -/
def get_balance (db : DB) (uid : Nat) : ℚ :=
  if uid = 0 then 0 else balLookup db.balances uid

/-- `set_balance(user_id, new_balance)`: a falsy `user_id` is a no-op,
otherwise update every matching `balances` row. -/
def set_balance (db : DB) (uid : Nat) (v : ℚ) : DB :=
  if uid = 0 then db else { db with balances := balSet db.balances uid v }

/-- `change_balance(user_id, delta)`: read the cached balance, write it
back shifted by `delta`, then append one `transactions` row.  Note that
the source fills `from_user` with `None if delta > 0 else None` and
`to_user` with `None if delta < 0 else None`, so both reference columns
are always `None`. -/
def change_balance (db : DB) (uid : Nat) (delta : ℚ) : DB :=
  if uid = 0 then db
  else
    let cur := get_balance db uid
    let db1 := set_balance db uid (cur + delta)
    { db1 with
      transactions := db1.transactions ++
        [⟨none, none, |delta|, if 0 < delta then "credit" else "debit"⟩] }

/-- `insert_expense`: append a row with status `"pending"` and return it. -/
def insert_expense (db : DB) (user_id : Nat) (username role : String)
    (amount : ℚ) (resource image_url note : Option String) : DB × ExpenseRow :=
  let e : ExpenseRow :=
    ⟨db.nextExpenseId, user_id, username, role, amount,
      resource, image_url, note, "pending", none⟩
  ({ db with expenses := db.expenses ++ [e],
             nextExpenseId := db.nextExpenseId + 1 }, e)

/-- `mark_expense_paid`: set status `"paid"` and record the payer on every
`expenses` row with the given id. -/
def mark_expense_paid (db : DB) (eid : Nat) (paidBy : Option Nat) : DB :=
  let upd := fun (e : ExpenseRow) =>
    if e.id = eid then { e with status := "paid", paid_by := paidBy } else e
  { db with expenses := db.expenses.map upd }

/-- Upsert of a `balances` row keyed by `user_id`. -/
def upsertBalance (db : DB) (uid : Nat) (v : ℚ) : DB :=
  if (db.balances.find? (fun b => b.user_id = uid)).isSome then
    { db with balances := balSet db.balances uid v }
  else
    { db with balances := db.balances ++ [⟨uid, v⟩] }

/-- Role resolution of `ensure_user_db`: the `allowed_map.get(username)`
lookup, overridden to `admin` when the handle is the admin username. -/
def roleOf (cfg : String → Option String) (adminU : String)
    (username : String) : Option String :=
  if username = adminU then some "admin" else cfg username

/-- `ensure_user_db(tg_id, username)` with the `allowed_map` dictionary and
the admin username passed in as parameters.  Strips the handle, resolves
the role, rejects unknown roles without touching the store, then looks the
user up by telegram id, then by username (back-filling a missing telegram
id), and finally inserts a fresh user with a zero balance row. -/
def ensure_user_db (cfg : String → Option String) (adminU : String)
    (db : DB) (tg : Nat) (uname0 : Option String) : DB × Option UserRow :=
  match roleOf cfg adminU (lstripAt (uname0.getD "")) with
  | none => (db, none)
  | some r =>
    if r = "hr" ∨ r = "it" ∨ r = "admin" then
      match db.users.find? (fun u => u.tg_id = some tg) with
      | some u => (db, some u)
      | none =>
        match db.users.find? (fun u => u.username = lstripAt (uname0.getD "")) with
        | some u =>
          if u.tg_id = none then
            ({ db with users := (db.users.map
                (fun v => if v.id = u.id then { v with tg_id := some tg } else v)) },
             some { u with tg_id := some tg })
          else (db, some u)
        | none =>
          (upsertBalance
            { db with
                users := db.users ++ [⟨db.nextUserId, some tg, lstripAt (uname0.getD ""), r⟩],
                nextUserId := db.nextUserId + 1 }
            db.nextUserId 0,
           some ⟨db.nextUserId, some tg, lstripAt (uname0.getD ""), r⟩)
    else (db, none)

/-- Payload of a `bot.send_message` call to a submitter (rendered text
replaced by its variable parts). -/
inductive Notice
  | paidCredit (amount : ℚ)
  | duePending (amount : ℚ)
  | giveCredit (amount : ℚ) (newBalance : ℚ)
  deriving Repr, DecidableEq

/-- The settle and defer buttons built by `admin_expense_actions`: the two
callback-data strings carrying the expense id. -/
structure ActionKb where
  paidCb : String
  dueCb : String
  deriving Repr, DecidableEq

/-- `admin_expense_actions(expense_id, ...)`. -/
def admin_expense_actions (expense_id : Nat) : ActionKb :=
  ⟨"admin:paid:" ++ toString expense_id, "admin:due:" ++ toString expense_id⟩

/-- Payload of a `bot.send_message` call to the admin: either the caption
of a new expense (with the settle and defer buttons attached) or the link
to the uploaded receipt. -/
inductive AdminNotify
  | hrExpense (fromUser : String) (role : String) (amount : ℚ) (kb : ActionKb)
  | itExpense (fromUser : String) (resource : Option String) (amount : ℚ) (kb : ActionKb)
  | receiptLink (url : String)
  deriving Repr, DecidableEq

/-- Outcome of a callback-query handler: the new database, the
`cb.answer` alert text and the messages sent to submitters. -/
structure CbRes where
  db : DB
  alert : String
  msgs : List (Nat × Notice)
  deriving Repr, DecidableEq

/-- Outcome of one branch of `main_message_handler`: the new database,
the replies sent back to the sender, the notices sent to other users,
the admin notifications, and whether the FSM state was cleared. -/
structure MsgRes where
  db : DB
  replies : List String
  msgs : List (Nat × Notice)
  adminMsgs : List (Nat × AdminNotify)
  cleared : Bool
  deriving Repr, DecidableEq

/-- `handle_admin_paid` (callback `admin:paid:<id>`): authorization gate,
expense lookup, terminal-status check, then the two-legged transfer
admin → submitter, marking the expense paid and notifying the submitter. -/
def handleAdminPaid (cfg : String → Option String) (adminU : String)
    (db : DB) (tg : Nat) (uname : Option String) (eid : Nat) : CbRes :=
  match ensure_user_db cfg adminU db tg uname with
  | (db0, none) => ⟨db0, "Только админ.", []⟩
  | (db0, some u) =>
    if u.role = "admin" then
      match db0.expenses.find? (fun e => e.id = eid) with
      | none => ⟨db0, "Заявка не найдена.", []⟩
      | some exp =>
        if exp.status = "paid" then ⟨db0, "Уже оплачено.", []⟩
        else
          let amount := exp.amount
          let admin_row := get_user_by_tg_id db0 tg
          let target_row := get_user_by_username db0 exp.username
          let db1 := match admin_row with
            | some r => if r.id ≠ 0 then change_balance db0 r.id (-amount) else db0
            | none => db0
          let db2 := match target_row with
            | some r => if r.id ≠ 0 then change_balance db1 r.id amount else db1
            | none => db1
          let db3 := mark_expense_paid db2 eid (admin_row.map (fun r => r.id))
          let msgs := match target_row with
            | some t => match t.tg_id with
              | some c => [(c, Notice.paidCredit amount)]
              | none => []
            | none => []
          ⟨db3, "Отмечено как оплачено.", msgs⟩
    else ⟨db0, "Только админ.", []⟩

/-- `handle_admin_due` (callback `admin:due:<id>`): authorization gate,
then an unconditional update of the expense status to `"pending"`
(the source comments this as marking it due while leaving it pending),
a re-read of the row and a notice to the submitter.  No ledger call. -/
def handleAdminDue (cfg : String → Option String) (adminU : String)
    (db : DB) (tg : Nat) (uname : Option String) (eid : Nat) : CbRes :=
  match ensure_user_db cfg adminU db tg uname with
  | (db0, none) => ⟨db0, "Только админ.", []⟩
  | (db0, some u) =>
    if u.role = "admin" then
      let setPending := fun (e : ExpenseRow) =>
        if e.id = eid then { e with status := "pending" } else e
      let db1 : DB := { db0 with expenses := db0.expenses.map setPending }
      let msgs := match db1.expenses.find? (fun e => e.id = eid) with
        | some e =>
          match get_user_by_username db1 e.username with
          | some t => match t.tg_id with
            | some c => [(c, Notice.duePending e.amount)]
            | none => []
          | none => []
        | none => []
      ⟨db1, "Отложено (Должен).", msgs⟩
    else ⟨db0, "Только админ.", []⟩

/-- The `AdminStates.waiting_give_amount` branch of
`main_message_handler`: parse the amount, look up the admin by telegram id
and the target by the stored username, debit the admin, credit the target,
and notify the target with its refreshed balance. -/
def giveAmountStep (cfg : String → Option String) (adminU : String)
    (db : DB) (tg : Nat) (uname : Option String)
    (give_to : String) (text : String) : MsgRes :=
  match ensure_user_db cfg adminU db tg uname with
  | (db0, none) => ⟨db0, ["Доступ запрещён."], [], [], false⟩
  | (db0, some _) =>
    match parse_amount text with
    | none =>
      ⟨db0, ["Не удалось распознать сумму. Отправь цифры (например: 1500)."], [], [], false⟩
    | some a =>
      if a = 0 then
        ⟨db0, ["Не удалось распознать сумму. Отправь цифры (например: 1500)."], [], [], false⟩
      else
        let admin_row := get_user_by_tg_id db0 tg
        let target_row := get_user_by_username db0 give_to
        let db1 := match admin_row with
          | some r => if r.id ≠ 0 then change_balance db0 r.id (-a) else db0
          | none => db0
        let step2 := match target_row with
          | some t =>
            if t.id ≠ 0 then
              let db2 := change_balance db1 t.id a
              let ms := match t.tg_id with
                | some c => [(c, Notice.giveCredit a (get_balance db2 t.id))]
                | none => []
              (db2, ms)
            else (db1, ([] : List (Nat × Notice)))
          | none => (db1, [])
        ⟨step2.1, ["Операция выполнена."], step2.2, [], true⟩

/-- An inbound message: either a photo attachment or plain text. -/
inductive Msg
  | photo (fileId : String)
  | text (s : String)
  deriving Repr, DecidableEq

/-- The `HRStates.waiting_photo` branch of `main_message_handler`: a photo
is uploaded and stored as the image url; the cash tokens store the note
`"наличка"`; the tokens `"нет"` and `"no"` store no note; any other text
is stored as the note.  In every case an expense with status `"pending"`
is inserted, the admin is notified with the settle and defer buttons, and
the FSM state is cleared.  No balance call occurs in this branch. -/
def hrPhotoStep (cfg : String → Option String) (adminU : String)
    (upload : String → Option String) (db : DB) (tg : Nat)
    (uname : Option String) (amount : ℚ) (m : Msg) : MsgRes :=
  match ensure_user_db cfg adminU db tg uname with
  | (db0, none) => ⟨db0, ["Доступ запрещён."], [], [], false⟩
  | (db0, some user) =>
    let img_url : Option String := match m with
      | .photo f => upload f
      | .text _ => none
    let note : Option String := match m with
      | .photo _ => none
      | .text t =>
        if pyLower t = "наличка" ∨ pyLower t = "наличка." ∨ pyLower t = "нал" then
          some "наличка"
        else if pyLower t = "нет" ∨ pyLower t = "no" then none
        else some t
    let ins := insert_expense db0 user.id user.username user.role amount none img_url note
    let admin := get_user_by_username ins.1 adminU
    let adminMsgs : List (Nat × AdminNotify) := match admin with
      | some a =>
        match a.tg_id with
        | some c =>
          if img_url.isSome then
            [(c, AdminNotify.hrExpense user.username user.role amount
                   (admin_expense_actions ins.2.id)),
             (c, AdminNotify.receiptLink (img_url.getD ""))]
          else
            [(c, AdminNotify.hrExpense user.username user.role amount
                   (admin_expense_actions ins.2.id))]
        | none => []
      | none => []
    ⟨ins.1, ["Заявка отправлена админу."], [], adminMsgs, true⟩

/-- The `ITStates.waiting_amount` branch of `main_message_handler`:
parse the amount; the `received` action credits the balance directly;
the spent action inserts a pending expense (with an optional receipt from
the same message), debits the balance, and notifies the admin with the
settle and defer buttons. -/
def itAmountStep (cfg : String → Option String) (adminU : String)
    (upload : String → Option String) (db : DB) (tg : Nat)
    (uname : Option String) (itAction : Option String)
    (resource : Option String) (text : String) (photo : Option String) : MsgRes :=
  match ensure_user_db cfg adminU db tg uname with
  | (db0, none) => ⟨db0, ["Доступ запрещён."], [], [], false⟩
  | (db0, some user) =>
    match parse_amount text with
    | none =>
      ⟨db0, ["Не удалось распознать сумму. Отправь цифры (например: 1500)."], [], [], false⟩
    | some a =>
      if a = 0 then
        ⟨db0, ["Не удалось распознать сумму. Отправь цифры (например: 1500)."], [], [], false⟩
      else if itAction = some "received" then
        let db1 := change_balance db0 user.id a
        ⟨db1, ["Баланс пополнен."], [], [], true⟩
      else
        let img_url : Option String := match photo with
          | some f => upload f
          | none => none
        let ins := insert_expense db0 user.id user.username user.role a resource img_url none
        let db2 := change_balance ins.1 user.id (-a)
        let admin := get_user_by_username db2 adminU
        let adminMsgs : List (Nat × AdminNotify) := match admin with
          | some ad =>
            match ad.tg_id with
            | some c =>
              if img_url.isSome then
                [(c, AdminNotify.itExpense user.username resource a
                       (admin_expense_actions ins.2.id)),
                 (c, AdminNotify.receiptLink (img_url.getD ""))]
              else
                [(c, AdminNotify.itExpense user.username resource a
                       (admin_expense_actions ins.2.id))]
            | none => []
          | none => []
        ⟨db2, ["Расход зарегистрирован и списан с баланса."], [], adminMsgs, true⟩

/-- Transient per-user FSM state (the aiogram `FSMContext` content):
the state name plus the accumulated dialog data. -/
structure ConvState where
  stateName : String
  amount : Option ℚ
  giveTo : Option String
  resource : Option String
  itAction : Option String
  deriving Repr, DecidableEq

/-- `cmd_start`: resolve the identity; an unauthorized identity is
answered with a rejection and the handler returns before any state is
touched; an authorized one gets its role panel and a cleared FSM state. -/
def cmdStart (cfg : String → Option String) (adminU : String)
    (db : DB) (tg : Nat) (uname : Option String)
    (conv : Option ConvState) : DB × Option ConvState × String :=
  match ensure_user_db cfg adminU db tg uname with
  | (db1, none) => (db1, conv, "Доступ запрещён. Свяжитесь с администратором.")
  | (db1, some u) =>
    if u.role = "hr" then (db1, none, "Добро пожаловать, HR. Вы в своём аккаунте.")
    else if u.role = "it" then (db1, none, "Добро пожаловать, IT. Вы в своём аккаунте.")
    else (db1, none, "Добро пожаловать, Админ.")

/-- Signed value of a transaction row: credits count positively, debits
negatively. -/
def signedAmount (t : TransactionRow) : ℚ :=
  if t.type = "credit" then t.amount else -t.amount

/-- Sum of the signed amounts of all transaction rows that reference the
given account through `from_user` or `to_user`. -/
def referencingSum (db : DB) (uid : Nat) : ℚ :=
  ((db.transactions.filter
      (fun t => t.from_user = some uid ∨ t.to_user = some uid)).map signedAmount).sum

/-- An `allowed_map` authorizing nobody. -/
def cfgNone : String → Option String := fun _ => none

/-- An `allowed_map` with one HR member and one IT member. -/
def cfgHr : String → Option String := fun u =>
  if u = "mkkdko" then some "hr"
  else if u = "denishr55" then some "it"
  else none

/-- A receipt-storage collaborator that always succeeds. -/
def upload0 : String → Option String := fun f => some ("https://storage/" ++ f)

/-- The configured admin handle. -/
def adminU0 : String := "denisHr55"

/-- Fixture rows and database states used by the concrete evaluations. -/
def adminRow0 : UserRow := ⟨1, some 10, "denisHr55", "admin"⟩

def hrRow0 : UserRow := ⟨2, some 20, "mkkdko", "hr"⟩

def itRow0 : UserRow := ⟨3, some 30, "denishr55", "it"⟩

def db0 : DB := ⟨[adminRow0, hrRow0, itRow0], [⟨1, 0⟩, ⟨2, 0⟩, ⟨3, 0⟩], [], [], 4, 1⟩

def expPaid0 : ExpenseRow := ⟨1, 2, "mkkdko", "hr", 100, none, none, none, "paid", some 1⟩

def dbPaid : DB :=
  ⟨[adminRow0, hrRow0, itRow0], [⟨1, 0⟩, ⟨2, 0⟩, ⟨3, 0⟩], [], [expPaid0], 4, 2⟩

def expPending0 : ExpenseRow := ⟨1, 2, "mkkdko", "hr", 100, none, none, none, "pending", none⟩

def dbPending : DB :=
  ⟨[adminRow0, hrRow0, itRow0], [⟨1, 0⟩, ⟨2, 0⟩, ⟨3, 0⟩], [], [expPending0], 4, 2⟩

/-- A parked conversation state used to show that rejection leaves the
FSM untouched. -/
def convW : ConvState := ⟨"HRStates.waiting_amount", some 5, none, none, none⟩

end Buh.V2

namespace Buh.BotPy

/-- A row of the `users` table in `bot.py`: the balance is an inline
column of the user row and there is no transaction table at all. -/
structure UserRow where
  username : String
  role : String
  balance : ℚ
  deriving Repr, DecidableEq

/-- A row of the `expenses` table in `bot.py` (note: no status column). -/
structure ExpenseRow where
  username : String
  role : String
  category : Option String
  amount : ℚ
  comment : String
  photo_id : Option String
  deriving Repr, DecidableEq

/-- The database state seen by `bot.py`. -/
structure DB where
  users : List UserRow
  expenses : List ExpenseRow
  deriving Repr, DecidableEq

/-- `get_balance(username)`: balance of the first matching user row,
zero when absent. -/
def get_balance (db : DB) (username : String) : ℚ :=
  match db.users.find? (fun u => u.username = username) with
  | some u => u.balance
  | none => 0

/-- `update_balance(username, new_balance)`: overwrite the balance column
of every matching user row.  No transaction record of any kind is
written. -/
def update_balance (db : DB) (username : String) (nb : ℚ) : DB :=
  let upd := fun (u : UserRow) =>
    if u.username = username then { u with balance := nb } else u
  { db with users := db.users.map upd }

/-- `ensure_user_in_db(username, role)`: insert a zero-balance user row
unless one with this username already exists. -/
def ensure_user_in_db (db : DB) (username role : String) : DB :=
  if (db.users.find? (fun u => u.username = username)).isSome then db
  else { db with users := db.users ++ [⟨username, role, 0⟩] }

/-- Message or photo sent to the configured admin by the finalization
handlers of `bot.py` (caption fields only; no action buttons exist in
this draft). -/
inductive AdminMsg
  | photoCaption (fileId : String) (username : String) (amount : ℚ)
      (comment : String) (categoryLabel : String)
  | textCaption (username : String) (amount : ℚ)
      (comment : String) (categoryLabel : String)
  deriving Repr, DecidableEq

/-- Outcome of a `bot.py` FSM handler. -/
structure StepRes where
  db : DB
  replies : List String
  adminMsg : Option AdminMsg
  cleared : Bool
  deriving Repr, DecidableEq

/-- `process_photo` (state `waiting_for_photo`, a photo arrived): debit
the balance of the sender by the stored amount, insert the expense with
the photo id, reply, forward the photo with a caption to the admin and
clear the state. -/
def processPhoto (itUsers : List String) (db : DB) (username : String)
    (amount : ℚ) (comment : String) (category : Option String)
    (fileId : String) : StepRes :=
  let old := get_balance db username
  let nb := old - amount
  let db1 := update_balance db username nb
  let row : ExpenseRow :=
    ⟨username, if username ∈ itUsers then "it" else "hr",
      category, amount, comment, some fileId⟩
  let db2 : DB := { db1 with expenses := db1.expenses ++ [row] }
  ⟨db2, ["Расход добавлен и списан с баланса."],
    some (AdminMsg.photoCaption fileId username amount comment (category.getD "HR")), true⟩

/-- `process_no_photo` (state `waiting_for_photo`, text arrived): the
lowercased token `"нет"` finalizes without a photo exactly like
`process_photo`; any other text re-prompts and changes nothing. -/
def processNoPhoto (itUsers : List String) (db : DB) (username : String)
    (amount : ℚ) (comment : String) (category : Option String)
    (text : String) : StepRes :=
  if pyLower text = "нет" then
    let old := get_balance db username
    let nb := old - amount
    let db1 := update_balance db username nb
    let row : ExpenseRow :=
      ⟨username, if username ∈ itUsers then "it" else "hr",
        category, amount, comment, none⟩
    let db2 : DB := { db1 with expenses := db1.expenses ++ [row] }
    ⟨db2, ["Расход добавлен без фото и списан с баланса."],
      some (AdminMsg.textCaption username amount comment (category.getD "HR")), true⟩
  else
    ⟨db, ["❌ Отправьте фото или напишите нет."], none, false⟩

/-- Fixture database for the `bot.py` draft. -/
def dbP0 : DB := ⟨[⟨"@mkkdko", "hr", 0⟩, ⟨"@denishr55", "it", 0⟩], []⟩

/-- The `IT_USERS` list of `bot.py`. -/
def itUsers0 : List String := ["@denishr55"]

end Buh.BotPy

namespace Buh.V2

theorem find?_balSet (l : List BalanceRow) (uid uid2 : Nat) (v : ℚ) :
    (balSet l uid2 v).find? (fun b => b.user_id = uid)
      = (l.find? (fun b => b.user_id = uid)).map
          (fun b => if b.user_id = uid2 then { b with balance := v } else b) := by
  unfold balSet
  rw [List.find?_map]
  have hp : ((fun b => decide (b.user_id = uid)) ∘
      (fun b => if b.user_id = uid2 then { b with balance := v } else b))
      = fun (b : BalanceRow) => decide (b.user_id = uid) := by
    funext b
    by_cases h : b.user_id = uid2 <;> simp [Function.comp, h]
  rw [hp]

theorem balLookup_balSet_self (l : List BalanceRow) (uid : Nat) (v : ℚ)
    (h : (l.find? (fun b => b.user_id = uid)).isSome) :
    balLookup (balSet l uid v) uid = v := by
  unfold balLookup
  rw [find?_balSet]
  rcases hf : l.find? (fun b => b.user_id = uid) with _ | b
  · rw [hf] at h; simp at h
  · rw [hf]
    have hb : b.user_id = uid := by simpa using List.find?_some hf
    simp [hb]

theorem balLookup_balSet_ne (l : List BalanceRow) (uid uid2 : Nat) (v : ℚ)
    (h : uid ≠ uid2) :
    balLookup (balSet l uid2 v) uid = balLookup l uid := by
  unfold balLookup
  rw [find?_balSet]
  rcases hf : l.find? (fun b => b.user_id = uid) with _ | b
  · rw [hf]; rfl
  · rw [hf]
    have hb : b.user_id = uid := by simpa using List.find?_some hf
    have hb2 : ¬ b.user_id = uid2 := by rw [hb]; exact h
    simp [hb2]

theorem find?_balSet_isSome (l : List BalanceRow) (uid uid2 : Nat) (v : ℚ) :
    ((balSet l uid2 v).find? (fun b => b.user_id = uid)).isSome
      = (l.find? (fun b => b.user_id = uid)).isSome := by
  rw [find?_balSet]
  rcases hf : l.find? (fun b => b.user_id = uid) with _ | b <;> rw [hf] <;> rfl

theorem change_balance_users (db : DB) (uid : Nat) (d : ℚ) :
    (change_balance db uid d).users = db.users := by
  unfold change_balance set_balance
  by_cases h : uid = 0 <;> simp [h]

theorem change_balance_expenses (db : DB) (uid : Nat) (d : ℚ) :
    (change_balance db uid d).expenses = db.expenses := by
  unfold change_balance set_balance
  by_cases h : uid = 0 <;> simp [h]

theorem change_balance_balances (db : DB) (uid : Nat) (d : ℚ) (h : uid ≠ 0) :
    (change_balance db uid d).balances
      = balSet db.balances uid (get_balance db uid + d) := by
  unfold change_balance set_balance
  simp [h]

theorem change_balance_find_isSome (db : DB) (uid uid2 : Nat) (d : ℚ) :
    ((change_balance db uid2 d).balances.find? (fun b => b.user_id = uid)).isSome
      = (db.balances.find? (fun b => b.user_id = uid)).isSome := by
  by_cases h : uid2 = 0
  · unfold change_balance; simp [h]
  · rw [change_balance_balances db uid2 d h, find?_balSet_isSome]

theorem get_balance_change_self (db : DB) (uid : Nat) (d : ℚ)
    (h0 : uid ≠ 0)
    (h : (db.balances.find? (fun b => b.user_id = uid)).isSome) :
    get_balance (change_balance db uid d) uid = get_balance db uid + d := by
  unfold get_balance
  rw [change_balance_balances db uid d h0]
  simp only [h0, if_neg]
  rw [balLookup_balSet_self _ _ _ h]
  simp [get_balance, h0]

theorem get_balance_change_ne (db : DB) (uid uid2 : Nat) (d : ℚ)
    (h : uid ≠ uid2) :
    get_balance (change_balance db uid2 d) uid = get_balance db uid := by
  by_cases h2 : uid2 = 0
  · unfold change_balance; simp [h2]
  · by_cases h0 : uid = 0
    · unfold get_balance; simp [h0]
    · unfold get_balance
      rw [change_balance_balances db uid2 d h2]
      simp only [h0, if_neg]
      rw [balLookup_balSet_ne _ _ _ _ h]

theorem upsertBalance_users (db : DB) (uid : Nat) (v : ℚ) :
    (upsertBalance db uid v).users = db.users := by
  unfold upsertBalance
  split <;> rfl

theorem ensure_found_by_tg (cfg : String → Option String) (adminU : String)
    (db : DB) (tg : Nat) (uname : Option String)
    (h : (db.users.find? (fun u => u.tg_id = some tg)).isSome) :
    (ensure_user_db cfg adminU db tg uname).1 = db := by
  rcases Option.isSome_iff_exists.mp h with ⟨u, hu⟩
  unfold ensure_user_db
  cases hR : roleOf cfg adminU (lstripAt (uname.getD "")) with
  | none => rfl
  | some r =>
    dsimp only
    split
    · rw [hu]
    · rfl

theorem ensure_users_length (cfg : String → Option String) (adminU : String)
    (db : DB) (tg : Nat) (uname : Option String) :
    (ensure_user_db cfg adminU db tg uname).1.users.length ≤ db.users.length + 1 := by
  unfold ensure_user_db
  cases hR : roleOf cfg adminU (lstripAt (uname.getD "")) with
  | none => exact Nat.le_succ _
  | some r =>
    dsimp only
    split
    · cases hT : db.users.find? (fun u => u.tg_id = some tg) with
      | some u => exact Nat.le_succ _
      | none =>
        dsimp only
        cases hU : db.users.find? (fun u => u.username = lstripAt (uname.getD "")) with
        | some u =>
          dsimp only
          split
          · simp
          · exact Nat.le_succ _
        | none =>
          dsimp only
          rw [upsertBalance_users]
          simp
    · exact Nat.le_succ _

theorem ensure_tg_found_after (cfg : String → Option String) (adminU : String)
    (db : DB) (tg : Nat) (uname : Option String) :
    (ensure_user_db cfg adminU db tg uname).1 = db ∨
    ((ensure_user_db cfg adminU db tg uname).1.users.find?
        (fun u => u.tg_id = some tg)).isSome := by
  unfold ensure_user_db
  cases hR : roleOf cfg adminU (lstripAt (uname.getD "")) with
  | none => exact Or.inl rfl
  | some r =>
    dsimp only
    split
    · cases hT : db.users.find? (fun u => u.tg_id = some tg) with
      | some u => exact Or.inl rfl
      | none =>
        dsimp only
        cases hU : db.users.find? (fun u => u.username = lstripAt (uname.getD "")) with
        | some u =>
          dsimp only
          split
          · right
            dsimp only
            refine (List.find?_isSome).mpr ⟨{ u with tg_id := some tg }, ?_, by simp⟩
            have hm : u ∈ db.users := List.mem_of_find?_eq_some hU
            have he : ({ u with tg_id := some tg } : UserRow)
                = (fun v => if v.id = u.id then { v with tg_id := some tg } else v) u := by
              simp
            rw [he]
            exact List.mem_map_of_mem _ hm
          · exact Or.inl rfl
        | none =>
          dsimp only
          right
          rw [upsertBalance_users]
          refine (List.find?_isSome).mpr
            ⟨⟨db.nextUserId, some tg, lstripAt (uname.getD ""), r⟩, ?_, by simp⟩
          simp
    · exact Or.inl rfl

theorem find?_expense_map_presId (l : List ExpenseRow) (eid : Nat)
    (f : ExpenseRow → ExpenseRow) (hf : ∀ e, (f e).id = e.id) :
    (l.map f).find? (fun e => e.id = eid)
      = (l.find? (fun e => e.id = eid)).map f := by
  rw [List.find?_map]
  have hp : ((fun e => decide (e.id = eid)) ∘ f)
      = fun (e : ExpenseRow) => decide (e.id = eid) := by
    funext e
    simp [Function.comp, hf]
  rw [hp]

end Buh.V2

namespace Buh.BotPy

theorem get_balance_update_self (db : DB) (username : String) (nb : ℚ)
    (h : (db.users.find? (fun v => v.username = username)).isSome) :
    get_balance (update_balance db username nb) username = nb := by
  unfold get_balance update_balance
  simp only [List.find?_map]
  have hp : ((fun v => decide (v.username = username)) ∘
      (fun u => if u.username = username then { u with balance := nb } else u))
      = fun (v : UserRow) => decide (v.username = username) := by
    funext v
    by_cases hv : v.username = username <;> simp [Function.comp, hv]
  rw [hp]
  rcases hf : db.users.find? (fun v => v.username = username) with _ | u
  · rw [hf] at h; simp at h
  · rw [hf]
    have hu : u.username = username := by simpa using List.find?_some hf
    simp [hu]

end Buh.BotPy

namespace Buh

theorem parse_amount_nonneg (s : String) (q : ℚ)
    (h : parse_amount s = some q) : 0 ≤ q := by
  unfold parse_amount at h
  split at h
  · exact absurd h (by simp)
  · unfold parseDecimalToken at h
    split at h
    · rw [Option.some_inj] at h
      subst h
      positivity
    · exact absurd h (by simp)

end Buh

namespace Buh.V2

/-- C1: the spec invariant `balance(account) == sum of signed Transaction
amounts referencing it` is broken by the code at the very first mutation:
`change_balance` writes its one transaction row with both `from_user` and
`to_user` equal to `None` (the source computes them as
`None if delta > 0 else None` and `None if delta < 0 else None`), so the
row references no account, the referencing sum stays `0`, and the cached
balance (here `5`) diverges from it immediately.  (`update_balance` in the
`bot.py` draft writes no transaction row at all — that draft has no
transactions table.) -/
theorem C1_cached_balance_diverges_from_transaction_log :
    get_balance (change_balance db0 1 5) 1 = 5 ∧
    (change_balance db0 1 5).transactions.length = 1 ∧
    referencingSum (change_balance db0 1 5) 1 = 0 ∧
    get_balance (change_balance db0 1 5) 1
      ≠ referencingSum (change_balance db0 1 5) 1 := by
  have hb : get_balance (change_balance db0 1 5) 1 = 5 := by
    norm_num [db0, change_balance, get_balance, set_balance, balSet, balLookup,
      List.find?]
  have hs : referencingSum (change_balance db0 1 5) 1 = 0 := by decide
  refine ⟨hb, by decide, hs, ?_⟩
  rw [hb, hs]
  norm_num

/-- C10: every transaction row that `change_balance` appends has both
`from_user` and `to_user` equal to `None`, regardless of the sign of the
delta and of which account was changed: any row of the output transaction
log is either an old row or one referencing no account. -/
theorem C10_change_balance_transactions_reference_no_account
    (db : DB) (uid : Nat) (d : ℚ) (t : TransactionRow)
    (ht : t ∈ (change_balance db uid d).transactions) :
    t ∈ db.transactions ∨ (t.from_user = none ∧ t.to_user = none) := by
  unfold change_balance set_balance at ht
  by_cases h : uid = 0
  · simp only [h, if_pos, if_true] at ht
    exact Or.inl ht
  · simp only [h, if_neg, if_false, ite_false] at ht
    rw [List.mem_append] at ht
    rcases ht with h1 | h2
    · exact Or.inl h1
    · rw [List.mem_singleton] at h2
      subst h2
      exact Or.inr ⟨rfl, rfl⟩

/-- Concrete instance of C10: the transaction row written by crediting
account 1 with 5 references no account. -/
theorem C10_witness :
    (⟨none, none, (5 : ℚ), "credit"⟩ : TransactionRow) ∈ db0.transactions ∨
    ((none : Option Nat) = none ∧ (none : Option Nat) = none) :=
  C10_change_balance_transactions_reference_no_account db0 1 5 _ (by decide)

/-- C2: settling an expense whose status is already `"paid"` is rejected
with the alert `"Уже оплачено."`: the database (balances, transactions,
expense rows) is returned unchanged and no message is sent. -/
theorem C2_settle_already_paid_is_noop
    (cfg : String → Option String) (adminU : String) (db : DB)
    (tg : Nat) (uname : Option String) (eid : Nat)
    (u : UserRow) (exp : ExpenseRow)
    (hens : ensure_user_db cfg adminU db tg uname = (db, some u))
    (hrole : u.role = "admin")
    (hfind : db.expenses.find? (fun e => e.id = eid) = some exp)
    (hpaid : exp.status = "paid") :
    handleAdminPaid cfg adminU db tg uname eid = ⟨db, "Уже оплачено.", []⟩ := by
  unfold handleAdminPaid
  rw [hens]
  dsimp only
  rw [hrole]
  simp only [if_pos, if_true]
  rw [hfind]
  dsimp only
  rw [hpaid]
  simp

/-- Concrete instance of C2: a second settle call on the already-paid
expense 1 leaves the whole database untouched and answers
`"Уже оплачено."`. -/
theorem C2_witness :
    handleAdminPaid cfgNone adminU0 dbPaid 10 (some "denisHr55") 1
      = ⟨dbPaid, "Уже оплачено.", []⟩ :=
  C2_settle_already_paid_is_noop cfgNone adminU0 dbPaid 10 (some "denisHr55") 1
    adminRow0 expPaid0 (by decide) (by decide) (by decide) (by decide)

/-- C3 counterexample: the claim says defer sets (or keeps) the status
`"due"`, but `handle_admin_due` writes `"pending"`: after the admin defers
the pending expense 1, its status is `"pending"`, which is not `"due"`. -/
theorem C3_counterexample_defer_writes_pending :
    (handleAdminDue cfgNone adminU0 dbPending 10 (some "denisHr55") 1).db.expenses.map
        (fun e => e.status) = ["pending"] ∧
    ("pending" : String) ≠ "due" := by
  refine ⟨by decide, by decide⟩

/-- C3 amended: for every pending expense, the admin defer operation sets
the status of the expense to `"pending"` (it never writes `"due"`),
performs no balance or transaction mutation on any account, and notifies
the submitter that the expense awaits payment. -/
theorem C3_defer_pending_no_ledger_effect_notifies
    (cfg : String → Option String) (adminU : String) (db : DB)
    (tg : Nat) (uname : Option String) (eid : Nat)
    (u : UserRow) (e : ExpenseRow) (t : UserRow) (c : Nat)
    (hens : ensure_user_db cfg adminU db tg uname = (db, some u))
    (hrole : u.role = "admin")
    (hfind : db.expenses.find? (fun x => x.id = eid) = some e)
    (hpend : e.status = "pending")
    (ht : get_user_by_username db e.username = some t)
    (htg : t.tg_id = some c) :
    ∀ r, handleAdminDue cfg adminU db tg uname eid = r →
      r.db.balances = db.balances ∧
      r.db.transactions = db.transactions ∧
      r.db.users = db.users ∧
      (∀ x ∈ r.db.expenses, x.id = eid → x.status = "pending") ∧
      r.msgs = [(c, Notice.duePending e.amount)] ∧
      r.alert = "Отложено (Должен)." := by
  intro r hr
  subst hr
  have hmap : (db.expenses.map
        (fun x => if x.id = eid then { x with status := "pending" } else x)).find?
        (fun x => x.id = eid)
      = some { e with status := "pending" } := by
    rw [find?_expense_map_presId db.expenses eid _ (by intro x; split <;> rfl), hfind]
    have he : e.id = eid := by simpa using List.find?_some hfind
    simp [he]
  have ht2 : db.users.find? (fun u2 => u2.username = lstripAt e.username) = some t := by
    unfold get_user_by_username at ht
    exact ht
  have hstep : handleAdminDue cfg adminU db tg uname eid
      = ⟨{ db with expenses := (db.expenses.map
            (fun x => if x.id = eid then { x with status := "pending" } else x)) },
         "Отложено (Должен).",
         [(c, Notice.duePending e.amount)]⟩ := by
    unfold handleAdminDue
    rw [hens]
    dsimp only
    rw [hrole, if_pos rfl]
    rw [hmap]
    dsimp only
    unfold get_user_by_username
    rw [show ({ db with expenses := (db.expenses.map
          (fun x => if x.id = eid then { x with status := "pending" } else x)) } : DB).users.find?
            (fun u2 => u2.username = lstripAt e.username) = some t from ht2]
    dsimp only
    rw [htg]
  rw [hstep]
  refine ⟨rfl, rfl, rfl, ?_, rfl, rfl⟩
  intro x hx hxid
  dsimp only at hx
  rcases List.mem_map.mp hx with ⟨y, hy, hfy⟩
  by_cases hyid : y.id = eid
  · rw [← hfy]; simp [hyid]
  · rw [← hfy] at hxid ⊢
    simp [hyid] at hxid ⊢

/-- C4 counterexample: the HR finalization branch of `bot_Version2.py`
completes the dialog (state cleared, a pending expense for 250 created)
without debiting the submitter: the balance of account 2 is unchanged
although the submitted amount 250 is non-zero. -/
theorem C4_counterexample_hr_finalization_without_debit :
    (hrPhotoStep cfgHr adminU0 upload0 db0 20 (some "mkkdko") 250
        (Msg.text "нет")).cleared = true ∧
    (hrPhotoStep cfgHr adminU0 upload0 db0 20 (some "mkkdko") 250
        (Msg.text "нет")).db.expenses.map (fun e => e.status) = ["pending"] ∧
    get_balance (hrPhotoStep cfgHr adminU0 upload0 db0 20 (some "mkkdko") 250
        (Msg.text "нет")).db 2 = get_balance db0 2 ∧
    (250 : ℚ) ≠ 0 := by
  refine ⟨by decide, by decide, by decide, by decide⟩

/-- C4 amended: finalization of a completed expense dialog creates one
Expense record, notifies the approver, and clears the conversation state;
the submitter is debited immediately in the IT spent flow of
`bot_Version2.py` and in the `bot.py` flow, but the HR flow of
`bot_Version2.py` performs no balance mutation at submission.  In the
`bot_Version2.py` flows the record has status `"pending"` and the
approver notification carries the settle and defer buttons; the `bot.py`
expense row has no status column and its notification has no buttons. -/
theorem C4_finalization_amended :
    (∀ (cfg : String → Option String) (adminU : String)
        (up : String → Option String) (db : DB) (tg : Nat)
        (uname : Option String) (amount : ℚ) (m : Msg) (u a : UserRow) (c : Nat),
      ensure_user_db cfg adminU db tg uname = (db, some u) →
      get_user_by_username db adminU = some a →
      a.tg_id = some c →
      ∀ r, hrPhotoStep cfg adminU up db tg uname amount m = r →
        r.cleared = true ∧
        r.db.balances = db.balances ∧
        r.db.transactions = db.transactions ∧
        (∃ e, r.db.expenses = db.expenses ++ [e] ∧ e.status = "pending" ∧
          e.amount = amount ∧ e.username = u.username) ∧
        (∃ rest, r.adminMsgs
            = (c, AdminNotify.hrExpense u.username u.role amount
                (admin_expense_actions db.nextExpenseId)) :: rest)) ∧
    (∀ (cfg : String → Option String) (adminU : String)
        (up : String → Option String) (db : DB) (tg : Nat)
        (uname : Option String) (resource : Option String) (text : String)
        (photo : Option String) (u a : UserRow) (c : Nat) (q : ℚ),
      ensure_user_db cfg adminU db tg uname = (db, some u) →
      parse_amount text = some q → q ≠ 0 →
      u.id ≠ 0 →
      (db.balances.find? (fun b => b.user_id = u.id)).isSome →
      get_user_by_username db adminU = some a →
      a.tg_id = some c →
      ∀ r, itAmountStep cfg adminU up db tg uname (some "spent")
          resource text photo = r →
        r.cleared = true ∧
        get_balance r.db u.id = get_balance db u.id - q ∧
        (∃ e, r.db.expenses = db.expenses ++ [e] ∧ e.status = "pending" ∧
          e.amount = q ∧ e.username = u.username) ∧
        (∃ rest, r.adminMsgs
            = (c, AdminNotify.itExpense u.username resource q
                (admin_expense_actions db.nextExpenseId)) :: rest)) ∧
    (∀ (itUsers : List String) (db : BotPy.DB) (username : String)
        (amount : ℚ) (comment : String) (category : Option String)
        (fileId : String),
      (db.users.find? (fun v => v.username = username)).isSome →
      ∀ r, BotPy.processPhoto itUsers db username amount comment category
          fileId = r →
        r.cleared = true ∧
        BotPy.get_balance r.db username = BotPy.get_balance db username - amount ∧
        r.db.expenses = db.expenses ++
          [⟨username, if username ∈ itUsers then "it" else "hr",
            category, amount, comment, some fileId⟩] ∧
        r.adminMsg = some (BotPy.AdminMsg.photoCaption fileId username amount
            comment (category.getD "HR"))) := by
  refine ⟨?_, ?_, ?_⟩
  · intro cfg adminU up db tg uname amount m u a c hens ha hatg r hr
    subst hr
    have ha2 : db.users.find? (fun v => v.username = lstripAt adminU) = some a := by
      unfold get_user_by_username at ha
      exact ha
    unfold hrPhotoStep
    rw [hens]
    dsimp only [insert_expense]
    unfold get_user_by_username
    dsimp only
    rw [ha2]
    dsimp only
    rw [hatg]
    dsimp only
    refine ⟨rfl, rfl, rfl, ⟨_, rfl, rfl, rfl, rfl⟩, ?_⟩
    split
    · exact ⟨_, rfl⟩
    · exact ⟨_, rfl⟩
  · intro cfg adminU up db tg uname resource text photo u a c q hens hq hq0
      hu0 hbal ha hatg r hr
    subst hr
    have ha2 : db.users.find? (fun v => v.username = lstripAt adminU) = some a := by
      unfold get_user_by_username at ha
      exact ha
    unfold itAmountStep
    rw [hens]
    dsimp only
    rw [hq]
    dsimp only
    rw [if_neg hq0, if_neg (by decide : ¬ (some "spent" : Option String) = some "received")]
    dsimp only [insert_expense]
    refine ⟨rfl, ?_, ?_, ?_⟩
    · rw [get_balance_change_self _ u.id (-q) hu0 (by exact hbal)]
      show get_balance db u.id + (-q) = get_balance db u.id - q
      ring
    · rw [change_balance_expenses]
      exact ⟨_, rfl, rfl, rfl, rfl⟩
    · unfold get_user_by_username
      rw [change_balance_users]
      dsimp only
      rw [ha2]
      dsimp only
      rw [hatg]
      dsimp only
      split
      · exact ⟨_, rfl⟩
      · exact ⟨_, rfl⟩
  · intro itUsers db username amount comment category fileId hrow r hr
    subst hr
    refine ⟨rfl, ?_, rfl, rfl⟩
    show BotPy.get_balance
        (BotPy.update_balance db username (BotPy.get_balance db username - amount))
        username = BotPy.get_balance db username - amount
    exact BotPy.get_balance_update_self db username _ hrow

/-- Concrete instances of the three parts of the amended C4: an HR photo
finalization, an IT spent finalization for `250,50`, and a `bot.py` photo
finalization. -/
theorem C4_witness :
    ((hrPhotoStep cfgHr adminU0 upload0 db0 20 (some "mkkdko") 100
        (Msg.photo "f7")).cleared = true ∧
      (hrPhotoStep cfgHr adminU0 upload0 db0 20 (some "mkkdko") 100
        (Msg.photo "f7")).db.balances = db0.balances ∧
      (hrPhotoStep cfgHr adminU0 upload0 db0 20 (some "mkkdko") 100
        (Msg.photo "f7")).db.transactions = db0.transactions ∧
      (∃ e, (hrPhotoStep cfgHr adminU0 upload0 db0 20 (some "mkkdko") 100
          (Msg.photo "f7")).db.expenses = db0.expenses ++ [e] ∧
        e.status = "pending" ∧ e.amount = 100 ∧ e.username = hrRow0.username) ∧
      (∃ rest, (hrPhotoStep cfgHr adminU0 upload0 db0 20 (some "mkkdko") 100
          (Msg.photo "f7")).adminMsgs
        = (10, AdminNotify.hrExpense hrRow0.username hrRow0.role 100
            (admin_expense_actions db0.nextExpenseId)) :: rest)) ∧
    ((itAmountStep cfgHr adminU0 upload0 db0 30 (some "denishr55")
        (some "spent") (some "Джубл") "250,50" none).cleared = true ∧
      get_balance (itAmountStep cfgHr adminU0 upload0 db0 30 (some "denishr55")
          (some "spent") (some "Джубл") "250,50" none).db itRow0.id
        = get_balance db0 itRow0.id - 501 / 2 ∧
      (∃ e, (itAmountStep cfgHr adminU0 upload0 db0 30 (some "denishr55")
          (some "spent") (some "Джубл") "250,50" none).db.expenses
          = db0.expenses ++ [e] ∧
        e.status = "pending" ∧ e.amount = 501 / 2 ∧ e.username = itRow0.username) ∧
      (∃ rest, (itAmountStep cfgHr adminU0 upload0 db0 30 (some "denishr55")
          (some "spent") (some "Джубл") "250,50" none).adminMsgs
        = (10, AdminNotify.itExpense itRow0.username (some "Джубл") (501 / 2)
            (admin_expense_actions db0.nextExpenseId)) :: rest)) ∧
    ((BotPy.processPhoto BotPy.itUsers0 BotPy.dbP0 "@mkkdko" 100 "обед" none
        "file9").cleared = true ∧
      BotPy.get_balance (BotPy.processPhoto BotPy.itUsers0 BotPy.dbP0 "@mkkdko"
          100 "обед" none "file9").db "@mkkdko"
        = BotPy.get_balance BotPy.dbP0 "@mkkdko" - 100 ∧
      (BotPy.processPhoto BotPy.itUsers0 BotPy.dbP0 "@mkkdko" 100 "обед" none
          "file9").db.expenses
        = BotPy.dbP0.expenses ++
          [⟨"@mkkdko", if "@mkkdko" ∈ BotPy.itUsers0 then "it" else "hr",
            none, 100, "обед", some "file9"⟩] ∧
      (BotPy.processPhoto BotPy.itUsers0 BotPy.dbP0 "@mkkdko" 100 "обед" none
          "file9").adminMsg
        = some (BotPy.AdminMsg.photoCaption "file9" "@mkkdko" 100 "обед"
            ((none : Option String).getD "HR"))) :=
  ⟨C4_finalization_amended.1 cfgHr adminU0 upload0 db0 20 (some "mkkdko") 100
      (Msg.photo "f7") hrRow0 adminRow0 10 (by decide) (by decide) (by decide) _ rfl,
   C4_finalization_amended.2.1 cfgHr adminU0 upload0 db0 30 (some "denishr55")
      (some "Джубл") "250,50" none itRow0 adminRow0 10 (501 / 2) (by decide)
      (by
        have h2 : parse_amount "250,50"
            = some ((((250 : ℕ) : ℚ)) + (((50 : ℕ) : ℚ)) / (10 : ℚ) ^ (2 : ℕ)) := rfl
        rw [h2]; norm_num)
      (by norm_num) (by decide) (by decide) (by decide) (by decide) _ rfl,
   C4_finalization_amended.2.2 BotPy.itUsers0 BotPy.dbP0 "@mkkdko" 100 "обед"
      none "file9" (by decide) _ rfl⟩

/-- C8 counterexample: in the `waiting_photo` step of the HR flow of
`bot_Version2.py`, the free text `"такси"` — neither an image nor a
no-proof token — does not re-prompt: it finalizes immediately, creating an
expense that stores the text as its note and clearing the state. -/
theorem C8_counterexample_free_text_finalizes :
    pyLower "такси" ≠ "наличка" ∧ pyLower "такси" ≠ "наличка." ∧
    pyLower "такси" ≠ "нал" ∧ pyLower "такси" ≠ "нет" ∧ pyLower "такси" ≠ "no" ∧
    (hrPhotoStep cfgHr adminU0 upload0 db0 20 (some "mkkdko") 100
        (Msg.text "такси")).db.expenses.map (fun e => e.note) = [some "такси"] ∧
    (hrPhotoStep cfgHr adminU0 upload0 db0 20 (some "mkkdko") 100
        (Msg.text "такси")).cleared = true := by
  refine ⟨by decide, by decide, by decide, by decide, by decide, by decide, by decide⟩

/-- C8 amended: in the proof-collection step, an image attachment
finalizes storing the proof reference and the case-insensitive no-proof
token finalizes with a null proof in both drafts; but while `bot.py`
re-prompts on any other text without creating an expense, the HR
`waiting_photo` branch of `bot_Version2.py` finalizes on any text — a
cash token stores the note `"наличка"` and any other text is stored
verbatim as the note of the created expense. -/
theorem C8_awaiting_proof_amended :
    (∀ (cfg : String → Option String) (adminU : String)
        (up : String → Option String) (db : DB) (tg : Nat)
        (uname : Option String) (amount : ℚ) (f : String) (u : UserRow),
      ensure_user_db cfg adminU db tg uname = (db, some u) →
      ∀ r, hrPhotoStep cfg adminU up db tg uname amount (Msg.photo f) = r →
        (∃ e, r.db.expenses = db.expenses ++ [e] ∧ e.image_url = up f ∧
          e.note = none) ∧ r.cleared = true) ∧
    (∀ (cfg : String → Option String) (adminU : String)
        (up : String → Option String) (db : DB) (tg : Nat)
        (uname : Option String) (amount : ℚ) (t : String) (u : UserRow),
      ensure_user_db cfg adminU db tg uname = (db, some u) →
      pyLower t = "нет" ∨ pyLower t = "no" →
      ∀ r, hrPhotoStep cfg adminU up db tg uname amount (Msg.text t) = r →
        (∃ e, r.db.expenses = db.expenses ++ [e] ∧ e.image_url = none ∧
          e.note = none) ∧ r.cleared = true) ∧
    (∀ (cfg : String → Option String) (adminU : String)
        (up : String → Option String) (db : DB) (tg : Nat)
        (uname : Option String) (amount : ℚ) (t : String) (u : UserRow),
      ensure_user_db cfg adminU db tg uname = (db, some u) →
      pyLower t = "наличка" ∨ pyLower t = "наличка." ∨ pyLower t = "нал" →
      ∀ r, hrPhotoStep cfg adminU up db tg uname amount (Msg.text t) = r →
        (∃ e, r.db.expenses = db.expenses ++ [e] ∧
          e.note = some "наличка") ∧ r.cleared = true) ∧
    (∀ (cfg : String → Option String) (adminU : String)
        (up : String → Option String) (db : DB) (tg : Nat)
        (uname : Option String) (amount : ℚ) (t : String) (u : UserRow),
      ensure_user_db cfg adminU db tg uname = (db, some u) →
      pyLower t ≠ "наличка" → pyLower t ≠ "наличка." → pyLower t ≠ "нал" →
      pyLower t ≠ "нет" → pyLower t ≠ "no" →
      ∀ r, hrPhotoStep cfg adminU up db tg uname amount (Msg.text t) = r →
        (∃ e, r.db.expenses = db.expenses ++ [e] ∧ e.image_url = none ∧
          e.note = some t) ∧ r.cleared = true) ∧
    (∀ (itUsers : List String) (db : BotPy.DB) (username : String)
        (amount : ℚ) (comment : String) (category : Option String)
        (fileId : String),
      ∀ r, BotPy.processPhoto itUsers db username amount comment category
          fileId = r →
        (∃ e, r.db.expenses = db.expenses ++ [e] ∧
          e.photo_id = some fileId) ∧ r.cleared = true) ∧
    (∀ (itUsers : List String) (db : BotPy.DB) (username : String)
        (amount : ℚ) (comment : String) (category : Option String)
        (t : String),
      pyLower t = "нет" →
      ∀ r, BotPy.processNoPhoto itUsers db username amount comment category
          t = r →
        (∃ e, r.db.expenses = db.expenses ++ [e] ∧ e.photo_id = none) ∧
        r.cleared = true) ∧
    (∀ (itUsers : List String) (db : BotPy.DB) (username : String)
        (amount : ℚ) (comment : String) (category : Option String)
        (t : String),
      pyLower t ≠ "нет" →
      ∀ r, BotPy.processNoPhoto itUsers db username amount comment category
          t = r →
        r.db = db ∧ r.cleared = false ∧
        r.replies = ["❌ Отправьте фото или напишите нет."]) := by
  refine ⟨?_, ?_, ?_, ?_, ?_, ?_, ?_⟩
  · intro cfg adminU up db tg uname amount f u hens r hr
    subst hr
    unfold hrPhotoStep
    rw [hens]
    dsimp only [insert_expense]
    exact ⟨⟨_, rfl, rfl, rfl⟩, rfl⟩
  · intro cfg adminU up db tg uname amount t u hens htok r hr
    subst hr
    unfold hrPhotoStep
    rw [hens]
    dsimp only [insert_expense]
    rcases htok with h | h <;>
      rw [h, if_neg (by decide), if_pos (by decide)] <;>
      exact ⟨⟨_, rfl, rfl, rfl⟩, rfl⟩
  · intro cfg adminU up db tg uname amount t u hens htok r hr
    subst hr
    unfold hrPhotoStep
    rw [hens]
    dsimp only [insert_expense]
    rcases htok with h | h | h <;>
      rw [h, if_pos (by decide)] <;>
      exact ⟨⟨_, rfl, rfl⟩, rfl⟩
  · intro cfg adminU up db tg uname amount t u hens hc1 hc2 hc3 hc4 hc5 r hr
    subst hr
    unfold hrPhotoStep
    rw [hens]
    dsimp only [insert_expense]
    rw [if_neg (fun h => h.elim hc1 (fun h2 => h2.elim hc2 hc3)),
      if_neg (fun h => h.elim hc4 hc5)]
    exact ⟨⟨_, rfl, rfl, rfl⟩, rfl⟩
  · intro itUsers db username amount comment category fileId r hr
    subst hr
    exact ⟨⟨_, rfl, rfl⟩, rfl⟩
  · intro itUsers db username amount comment category t h r hr
    subst hr
    unfold BotPy.processNoPhoto
    rw [if_pos h]
    exact ⟨⟨_, rfl, rfl⟩, rfl⟩
  · intro itUsers db username amount comment category t h r hr
    subst hr
    unfold BotPy.processNoPhoto
    rw [if_neg h]
    exact ⟨rfl, rfl, rfl⟩

/-- Concrete instances of the seven parts of the amended C8, including
the case-insensitive token `"Нет"` and the re-prompt of `bot.py` on
`"привет"`. -/
theorem C8_witness :
    ((∃ e, (hrPhotoStep cfgHr adminU0 upload0 db0 20 (some "mkkdko") 100
        (Msg.photo "f8")).db.expenses = db0.expenses ++ [e] ∧
      e.image_url = upload0 "f8" ∧ e.note = none) ∧
      (hrPhotoStep cfgHr adminU0 upload0 db0 20 (some "mkkdko") 100
        (Msg.photo "f8")).cleared = true) ∧
    ((∃ e, (hrPhotoStep cfgHr adminU0 upload0 db0 20 (some "mkkdko") 100
        (Msg.text "Нет")).db.expenses = db0.expenses ++ [e] ∧
      e.image_url = none ∧ e.note = none) ∧
      (hrPhotoStep cfgHr adminU0 upload0 db0 20 (some "mkkdko") 100
        (Msg.text "Нет")).cleared = true) ∧
    ((∃ e, (hrPhotoStep cfgHr adminU0 upload0 db0 20 (some "mkkdko") 100
        (Msg.text "нал")).db.expenses = db0.expenses ++ [e] ∧
      e.note = some "наличка") ∧
      (hrPhotoStep cfgHr adminU0 upload0 db0 20 (some "mkkdko") 100
        (Msg.text "нал")).cleared = true) ∧
    ((∃ e, (hrPhotoStep cfgHr adminU0 upload0 db0 20 (some "mkkdko") 100
        (Msg.text "такси")).db.expenses = db0.expenses ++ [e] ∧
      e.image_url = none ∧ e.note = some "такси") ∧
      (hrPhotoStep cfgHr adminU0 upload0 db0 20 (some "mkkdko") 100
        (Msg.text "такси")).cleared = true) ∧
    ((∃ e, (BotPy.processPhoto BotPy.itUsers0 BotPy.dbP0 "@mkkdko" 100 "обед"
        none "f9").db.expenses = BotPy.dbP0.expenses ++ [e] ∧
      e.photo_id = some "f9") ∧
      (BotPy.processPhoto BotPy.itUsers0 BotPy.dbP0 "@mkkdko" 100 "обед"
        none "f9").cleared = true) ∧
    ((∃ e, (BotPy.processNoPhoto BotPy.itUsers0 BotPy.dbP0 "@mkkdko" 100 "обед"
        none "Нет").db.expenses = BotPy.dbP0.expenses ++ [e] ∧
      e.photo_id = none) ∧
      (BotPy.processNoPhoto BotPy.itUsers0 BotPy.dbP0 "@mkkdko" 100 "обед"
        none "Нет").cleared = true) ∧
    ((BotPy.processNoPhoto BotPy.itUsers0 BotPy.dbP0 "@mkkdko" 100 "обед"
        none "привет").db = BotPy.dbP0 ∧
      (BotPy.processNoPhoto BotPy.itUsers0 BotPy.dbP0 "@mkkdko" 100 "обед"
        none "привет").cleared = false ∧
      (BotPy.processNoPhoto BotPy.itUsers0 BotPy.dbP0 "@mkkdko" 100 "обед"
        none "привет").replies = ["❌ Отправьте фото или напишите нет."]) :=
  ⟨C8_awaiting_proof_amended.1 cfgHr adminU0 upload0 db0 20 (some "mkkdko") 100
      "f8" hrRow0 (by decide) _ rfl,
   C8_awaiting_proof_amended.2.1 cfgHr adminU0 upload0 db0 20 (some "mkkdko")
      100 "Нет" hrRow0 (by decide) (by decide) _ rfl,
   C8_awaiting_proof_amended.2.2.1 cfgHr adminU0 upload0 db0 20 (some "mkkdko")
      100 "нал" hrRow0 (by decide) (by decide) _ rfl,
   C8_awaiting_proof_amended.2.2.2.1 cfgHr adminU0 upload0 db0 20
      (some "mkkdko") 100 "такси" hrRow0 (by decide) (by decide) (by decide)
      (by decide) (by decide) (by decide) _ rfl,
   C8_awaiting_proof_amended.2.2.2.2.1 BotPy.itUsers0 BotPy.dbP0 "@mkkdko" 100
      "обед" none "f9" _ rfl,
   C8_awaiting_proof_amended.2.2.2.2.2.1 BotPy.itUsers0 BotPy.dbP0 "@mkkdko"
      100 "обед" none "Нет" (by decide) _ rfl,
   C8_awaiting_proof_amended.2.2.2.2.2.2 BotPy.itUsers0 BotPy.dbP0 "@mkkdko"
      100 "обед" none "привет" (by decide) _ rfl⟩

/-- C6: the admin give-money operation with a parsed amount `q` debits
the admin account by `q`, credits the target account by `q`, leaves the
sum of the two balances unchanged, sends the target one credit notice
(with its refreshed balance), and clears the admin FSM state. -/
theorem C6_give_money_transfers_and_notifies
    (cfg : String → Option String) (adminU : String) (db : DB)
    (tg : Nat) (uname : Option String) (give_to text : String)
    (u ar tr : UserRow) (c : Nat) (q : ℚ)
    (hens : ensure_user_db cfg adminU db tg uname = (db, some u))
    (hq : parse_amount text = some q) (hq0 : q ≠ 0)
    (har : get_user_by_tg_id db tg = some ar) (har0 : ar.id ≠ 0)
    (htr : get_user_by_username db give_to = some tr) (htr0 : tr.id ≠ 0)
    (htg : tr.tg_id = some c) (hne : ar.id ≠ tr.id)
    (hbar : (db.balances.find? (fun b => b.user_id = ar.id)).isSome)
    (hbtr : (db.balances.find? (fun b => b.user_id = tr.id)).isSome) :
    ∀ r, giveAmountStep cfg adminU db tg uname give_to text = r →
      get_balance r.db ar.id = get_balance db ar.id - q ∧
      get_balance r.db tr.id = get_balance db tr.id + q ∧
      get_balance r.db ar.id + get_balance r.db tr.id
        = get_balance db ar.id + get_balance db tr.id ∧
      r.msgs = [(c, Notice.giveCredit q (get_balance db tr.id + q))] ∧
      r.cleared = true := by
  intro r hr
  subst hr
  unfold giveAmountStep
  rw [hens]
  dsimp only
  rw [hq]
  dsimp only
  rw [if_neg hq0]
  rw [har, htr]
  dsimp only
  rw [if_pos har0, if_pos htr0, htg]
  dsimp only
  have hfind1 : ((change_balance db ar.id (-q)).balances.find?
      (fun b => b.user_id = tr.id)).isSome := by
    rw [change_balance_find_isSome]
    exact hbtr
  have hA : get_balance
      (change_balance (change_balance db ar.id (-q)) tr.id q) ar.id
      = get_balance db ar.id + (-q) := by
    rw [get_balance_change_ne _ ar.id tr.id q hne,
      get_balance_change_self db ar.id (-q) har0 hbar]
  have hB : get_balance
      (change_balance (change_balance db ar.id (-q)) tr.id q) tr.id
      = get_balance db tr.id + q := by
    rw [get_balance_change_self _ tr.id q htr0 hfind1,
      get_balance_change_ne db tr.id ar.id (-q) (Ne.symm hne)]
  refine ⟨?_, ?_, ?_, ?_, rfl⟩
  · rw [hA]; ring
  · exact hB
  · rw [hA, hB]; ring
  · rw [hB]

/-- Concrete instance of C6: the admin (account 1, balance 0) gives 1500
to `mkkdko` (account 2): admin ends at −1500, the target gains +1500, the
sum of the two balances is unchanged, and the target (chat 20) is
notified. -/
theorem C6_witness :
    get_balance (giveAmountStep cfgHr adminU0 db0 10 (some "denisHr55")
        "mkkdko" "1500").db 1 = get_balance db0 1 - 1500 ∧
    get_balance (giveAmountStep cfgHr adminU0 db0 10 (some "denisHr55")
        "mkkdko" "1500").db 2 = get_balance db0 2 + 1500 ∧
    get_balance (giveAmountStep cfgHr adminU0 db0 10 (some "denisHr55")
          "mkkdko" "1500").db 1 +
        get_balance (giveAmountStep cfgHr adminU0 db0 10 (some "denisHr55")
          "mkkdko" "1500").db 2
      = get_balance db0 1 + get_balance db0 2 ∧
    (giveAmountStep cfgHr adminU0 db0 10 (some "denisHr55")
        "mkkdko" "1500").msgs
      = [(20, Notice.giveCredit 1500 (get_balance db0 2 + 1500))] ∧
    (giveAmountStep cfgHr adminU0 db0 10 (some "denisHr55")
        "mkkdko" "1500").cleared = true :=
  C6_give_money_transfers_and_notifies cfgHr adminU0 db0 10 (some "denisHr55")
    "mkkdko" "1500" adminRow0 adminRow0 hrRow0 20 1500
    (by decide)
    (by
      have h2 : parse_amount "1500"
          = some ((((1500 : ℕ) : ℚ)) + (((0 : ℕ) : ℚ)) / (10 : ℚ) ^ (0 : ℕ)) := rfl
      rw [h2]; norm_num)
    (by norm_num) (by decide) (by decide) (by decide) (by decide) (by decide)
    (by decide) (by decide) (by decide) _ rfl

/-- C7: identity resolution is idempotent.  Resolving the same
`(tg_id, username)` a second time leaves the database exactly as the first
call left it (so no duplicate account row is ever created), and a single
call grows the users table by at most one row. -/
theorem C7_resolve_idempotent (cfg : String → Option String) (adminU : String)
    (db : DB) (tg : Nat) (uname : Option String) :
    (ensure_user_db cfg adminU
        (ensure_user_db cfg adminU db tg uname).1 tg uname).1
      = (ensure_user_db cfg adminU db tg uname).1 ∧
    (ensure_user_db cfg adminU db tg uname).1.users.length
      ≤ db.users.length + 1 := by
  refine ⟨?_, ensure_users_length cfg adminU db tg uname⟩
  rcases ensure_tg_found_after cfg adminU db tg uname with h | h
  · rw [h]
    exact h
  · exact ensure_found_by_tg cfg adminU _ tg uname h

/-- C9: an identity matching no configured role set is rejected without
creating any state: `ensure_user_db` returns `None` with the database
untouched (no account row, no balance row), and `cmd_start` answers with
the rejection text while leaving the conversation state exactly as it
was. -/
theorem C9_unauthorized_rejected_without_state
    (cfg : String → Option String) (adminU : String) (db : DB)
    (tg : Nat) (uname : Option String) (conv : Option ConvState)
    (hcfg : cfg (lstripAt (uname.getD "")) = none)
    (hadm : lstripAt (uname.getD "") ≠ adminU) :
    ensure_user_db cfg adminU db tg uname = (db, none) ∧
    cmdStart cfg adminU db tg uname conv
      = (db, conv, "Доступ запрещён. Свяжитесь с администратором.") := by
  have h1 : ensure_user_db cfg adminU db tg uname = (db, none) := by
    unfold ensure_user_db
    rw [show roleOf cfg adminU (lstripAt (uname.getD "")) = none from by
      unfold roleOf; rw [if_neg hadm]; exact hcfg]
  refine ⟨h1, ?_⟩
  unfold cmdStart
  rw [h1]

/-- Concrete instance of C9: the unknown handle `"hacker"` is rejected,
the database keeps its three accounts and three balance rows, and the
parked conversation state of the user survives untouched. -/
theorem C9_witness :
    ensure_user_db cfgNone adminU0 db0 99 (some "hacker") = (db0, none) ∧
    cmdStart cfgNone adminU0 db0 99 (some "hacker") (some convW)
      = (db0, some convW, "Доступ запрещён. Свяжитесь с администратором.") :=
  C9_unauthorized_rejected_without_state cfgNone adminU0 db0 99 (some "hacker")
    (some convW) (by decide) (by decide)

/-- C5 counterexample: a negative amount is not rejected.  The token
extractor of `parse_amount` skips the leading minus sign (it is neither a
digit nor a separator and the accumulator is still empty), so `"-5"`
parses to `5`, and the call-site truthiness check accepts it. -/
theorem C5_counterexample_negative_accepted :
    parse_amount "-5" = some (5 : ℚ) ∧ amountAccepted "-5" = true := by
  have h : parse_amount "-5" = some (5 : ℚ) := by
    have h2 : parse_amount "-5"
        = some ((((5 : ℕ) : ℚ)) + (((0 : ℕ) : ℚ)) / (10 : ℚ) ^ (0 : ℕ)) := rfl
    rw [h2]; norm_num
  refine ⟨h, ?_⟩
  unfold amountAccepted
  rw [h]
  norm_num

/-- C5 amended: amount parsing extracts a decimal token accepting both
`.` and `,` as the fractional separator; `"0"` is rejected (it parses to
zero, which every call site treats as invalid input), `"12.5.3"` is
rejected, and `"1,5 грн"` parses to `1.5` and is accepted — but a negative
number is not rejected: the sign is dropped by token extraction, every
parsed amount is non-negative, and `"-5"` parses to `5` and is
accepted. -/
theorem C5_amount_parsing_amended :
    (∀ s q, parse_amount s = some q → 0 ≤ q) ∧
    amountAccepted "0" = false ∧
    parse_amount "12.5.3" = none ∧
    parse_amount "1,5 грн" = some (3 / 2 : ℚ) ∧
    amountAccepted "1,5 грн" = true ∧
    parse_amount "-5" = some (5 : ℚ) ∧
    amountAccepted "-5" = true := by
  have h0 : parse_amount "0" = some (0 : ℚ) := by
    have h2 : parse_amount "0"
        = some ((((0 : ℕ) : ℚ)) + (((0 : ℕ) : ℚ)) / (10 : ℚ) ^ (0 : ℕ)) := rfl
    rw [h2]; norm_num
  have h15 : parse_amount "1,5 грн" = some (3 / 2 : ℚ) := by
    have h2 : parse_amount "1,5 грн"
        = some ((((1 : ℕ) : ℚ)) + (((5 : ℕ) : ℚ)) / (10 : ℚ) ^ (1 : ℕ)) := rfl
    rw [h2]; norm_num
  have h5 : parse_amount "-5" = some (5 : ℚ) := by
    have h2 : parse_amount "-5"
        = some ((((5 : ℕ) : ℚ)) + (((0 : ℕ) : ℚ)) / (10 : ℚ) ^ (0 : ℕ)) := rfl
    rw [h2]; norm_num
  refine ⟨parse_amount_nonneg, ?_, by decide, h15, ?_, h5, ?_⟩
  · unfold amountAccepted
    rw [h0]
    norm_num
  · unfold amountAccepted
    rw [h15]
    norm_num
  · unfold amountAccepted
    rw [h5]
    norm_num

/-- Concrete instance of the non-negativity part of the amended C5. -/
theorem C5_witness : (0 : ℚ) ≤ 3 / 2 :=
  C5_amount_parsing_amended.1 "1,5 грн" (3 / 2) C5_amount_parsing_amended.2.2.2.1

/-- Concrete instance of the amended C3 at the pending expense 1. -/
theorem C3_witness :
    (handleAdminDue cfgNone adminU0 dbPending 10 (some "denisHr55") 1).db.balances
        = dbPending.balances ∧
    (handleAdminDue cfgNone adminU0 dbPending 10 (some "denisHr55") 1).db.transactions
        = dbPending.transactions ∧
    (handleAdminDue cfgNone adminU0 dbPending 10 (some "denisHr55") 1).db.users
        = dbPending.users ∧
    (∀ x ∈ (handleAdminDue cfgNone adminU0 dbPending 10 (some "denisHr55") 1).db.expenses,
        x.id = 1 → x.status = "pending") ∧
    (handleAdminDue cfgNone adminU0 dbPending 10 (some "denisHr55") 1).msgs
        = [(20, Notice.duePending expPending0.amount)] ∧
    (handleAdminDue cfgNone adminU0 dbPending 10 (some "denisHr55") 1).alert
        = "Отложено (Должен)." :=
  C3_defer_pending_no_ledger_effect_notifies cfgNone adminU0 dbPending 10
    (some "denisHr55") 1 adminRow0 expPending0 hrRow0 20
    (by decide) (by decide) (by decide) (by decide) (by decide) (by decide) _ rfl

end Buh.V2
